import Mathlib

/-!
# Verification of the KUBookRecs recommendation core

Shallow embedding of `kubookrecs_bot_live_log.py`: the preference extractor
(`extract_prefs`), the scoring engine (`contains_any`, `score_row`), the
ranker/selector (`pick_books`) and the catalog loader (`load_books`).

Modelling conventions:
* Python strings are embedded as `List Char` (`Str`); `str.lower()` is
  `Char.toLower` mapped over the list (ASCII case folding — all vocabulary
  terms and patterns in the program are ASCII).
* The regular expressions of the source are modelled literally: `\s` is the
  ASCII whitespace class, `\w` (used for `\b` word boundaries) is the ASCII
  alphanumeric-or-underscore class, and `re.search` is a leftmost search over
  all start positions with Python's greedy/backtracking alternative order.
* `pandas.DataFrame.sort_values(ascending=False)` is called by the source
  with the default `kind='quicksort'`, which pandas documents as not stable:
  the program only guarantees some permutation ordered by non-increasing
  score, with the relative order of tied rows unspecified.  That documented
  contract is embedded as the relation `sortValuesAdmissible` (and
  `pickBooksAdmissible` for the whole selector); the executable
  `sortScoreDesc` inside `pick_books` is the stable reference ordering (the
  behavior under `kind='stable'`/`'mergesort'`), which is one admissible
  outcome.  Rows keep their original integer index, modelled by pairing each
  row with its position.
* `pd.to_numeric(cell, errors="coerce")` on the pages column is modelled by
  `toNumericCell`: sign, decimal mantissa, optional exponent, and the
  `inf`/`infinity` literals, with exact decimal values truncated toward zero
  by `astype(int)` and overflow of `float64` to infinity; `astype(int)`
  raises on non-finite cells, which `load_books` reflects as a load error.
* Fallible Python operations (`int(...)`, `split()[0]`) are modelled in an
  `Except`-valued variant of the extractor, `extract_prefsE`.
-/

abbrev Str := List Char

/-- `str.lower()` (ASCII case folding). -/
def lower (s : Str) : Str := s.map Char.toLower

/-- Python's substring test `needle in hay`. -/
def isInfixB (needle hay : Str) : Bool := decide (needle <:+: hay)

/-- The ASCII part of Python's regex class `\s`. -/
def isPySpace (c : Char) : Bool :=
  c = ' ' || c = '\t' || c = '\n' || c = '\r' || c = '\x0b' || c = '\x0c'

/-- The ASCII part of Python's regex class `\w` (for `\b` word boundaries). -/
def isPyWord (c : Char) : Bool := c.isAlphanum || c = '_'

/-- `true` when position `i` of `low` is past the end or holds a non-word
character; used for `\b` boundaries. -/
def nonWordAt (low : Str) (i : Nat) : Bool :=
  match low[i]? with
  | some c => !isPyWord c
  | none => true

/-- One candidate match of a literal `pat` at position `i` of `low`, with an
optional `\b` requirement on the left (`bl`) and right (`br`) edge. -/
def matchWordAt (low pat : Str) (i : Nat) (bl br : Bool) : Bool :=
  pat.isPrefixOf (low.drop i)
    && (!bl || (match i with | 0 => true | j + 1 => nonWordAt low j))
    && (!br || nonWordAt low (i + pat.length))

/-- `re.search` existence for a literal with optional word boundaries. -/
def existsWordMatch (low pat : Str) (bl br : Bool) : Bool :=
  (List.range (low.length + 1)).any (fun i => matchWordAt low pat i bl br)

/-- The alternatives of the regex fragment `(-|\s)?`. -/
def sepChars : List Str := [[], ['-'], [' '], ['\t'], ['\n'], ['\r'], ['\x0b'], ['\x0c']]

/-- The literals covered by `closed(-|\s)?door`. -/
def closedMids : List Str := sepChars.map (fun s => "closed".toList ++ s ++ "door".toList)

/-- The literals covered by `open(-|\s)?door`. -/
def openMids : List Str := sepChars.map (fun s => "open".toList ++ s ++ "door".toList)

/-- `re.search(r"\bclosed(-|\s)?door\b|clean\b", low)` (note: no `\b` before
`clean`, exactly as in the source). -/
def closedPat (low : Str) : Bool :=
  closedMids.any (fun m => existsWordMatch low m true true)
    || existsWordMatch low "clean".toList false true

/-- `"fade to black" in low`. -/
def fadePat (low : Str) : Bool := isInfixB "fade to black".toList low

/-- `re.search(r"\bopen(-|\s)?door\b|spice|steamy|spicy", low)`. -/
def openPat (low : Str) : Bool :=
  openMids.any (fun m => existsWordMatch low m true true)
    || isInfixB "spice".toList low
    || isInfixB "steamy".toList low
    || isInfixB "spicy".toList low

/-- `"kindle unlimited" in low or re.search(r"\bku\b", low)`. -/
def kuPat (low : Str) : Bool :=
  isInfixB "kindle unlimited".toList low || existsWordMatch low "ku".toList true true

/-- Numeric value of a digit string (the semantics of `int` on the capture of
`\d{2,4}`). -/
def digitsToNat (ds : Str) : Nat := ds.foldl (fun n c => 10 * n + (c.toNat - '0'.toNat)) 0

/-- After the literal `under`/`<`: match `\s*(\d{2,4})\s*pages`, returning the
captured digits.  The greedy `\d{2,4}` tries 4, then 3, then 2 digits. -/
def pagesAfter (l : Str) : Option Str :=
  let l1 := l.dropWhile isPySpace
  let d := l1.takeWhile Char.isDigit
  ([4, 3, 2].filter (fun len => len ≤ d.length)).findSome? (fun len =>
    if "pages".toList.isPrefixOf ((l1.drop len).dropWhile isPySpace) then
      some (d.take len)
    else none)

/-- One candidate match of `(?:under|<)\s*(\d{2,4})\s*pages` at position `i`
(the alternation tries `under` before `<`). -/
def pagesMatchAt (low : Str) (i : Nat) : Option Str :=
  let rest := low.drop i
  if "under".toList.isPrefixOf rest then pagesAfter (rest.drop 5)
  else if rest.take 1 = ['<'] then pagesAfter (rest.drop 1)
  else none

/-- `re.search(r"(?:under|<)\s*(\d{2,4})\s*pages", low)`: leftmost match's
captured digit group. -/
def pagesSearch (low : Str) : Option Str :=
  (List.range (low.length + 1)).findSome? (fun i => pagesMatchAt low i)

/-- The character class `[A-Za-z0-9'\":\- ]` of the comparable-title regex. -/
def isCompChar (c : Char) : Bool :=
  c.isAlpha || c.isDigit || c = '\x27' || c = '\"' || c = ':' || c = '-' || c = ' '

/-- `[n, n-1, ..., 1]`: the backtracking order of a greedy `\s+`. -/
def countdown : Nat → List Nat
  | 0 => []
  | n + 1 => (n + 1) :: countdown n

/-- One candidate match of `like\s+([A-Za-z0-9'\":\- ]{3,60})` (with
`re.IGNORECASE`) at position `i`: `\s+` is greedy but gives characters back to
the capture class (which contains the space) when the class cannot reach its
minimum of 3; the capture itself is greedy and nothing follows it, so it takes
at most 60 class characters. -/
def compsMatchAt (text low : Str) (i : Nat) : Option Str :=
  if "like".toList.isPrefixOf (low.drop i) then
    let after := text.drop (i + 4)
    let wsMax := (after.takeWhile isPySpace).length
    (countdown wsMax).findSome? (fun j =>
      let cap := ((after.drop j).takeWhile isCompChar).take 60
      if 3 ≤ cap.length then some cap else none)
  else none

/-- `re.search(r"like\s+([A-Za-z0-9'\":\- ]{3,60})", text, flags=re.I)`:
leftmost match's capture, original casing preserved. -/
def compsSearch (text : Str) : Option Str :=
  (List.range (text.length + 1)).findSome? (fun i => compsMatchAt text (lower text) i)

/-- Python's `str.strip()` (ASCII whitespace). -/
def pyStrip (s : Str) : Str := ((s.dropWhile isPySpace).reverse.dropWhile isPySpace).reverse

/-- `s.split()[0]` as an `Option`: `none` exactly when `split()[0]` would raise
`IndexError` (no non-whitespace characters). -/
def firstWord (s : Str) : Option Str :=
  let t := s.dropWhile isPySpace
  if t = [] then none else some (t.takeWhile (fun c => !isPySpace c))

/-- `GENRES` vocabulary of the source. -/
def GENRES : List Str :=
  ["romance".toList, "romantic suspense".toList, "cozy mystery".toList, "mystery".toList,
   "thriller".toList, "fantasy".toList, "science fiction".toList, "sci-fi".toList,
   "space opera".toList, "historical fiction".toList, "wwii".toList,
   "women\x27s fiction".toList]

/-- `TROPES` vocabulary of the source. -/
def TROPES : List Str :=
  ["found family".toList, "enemies to lovers".toList, "slow burn".toList,
   "grumpy sunshine".toList, "heist".toList, "fake dating".toList,
   "amateur sleuth".toList, "secret identity".toList, "second chance".toList,
   "dual timeline".toList, "forbidden love".toList, "forced proximity".toList]

/-- `VIBES` vocabulary of the source. -/
def VIBES : List Str :=
  ["hopeful".toList, "dark".toList, "witty".toList, "cozy".toList, "bittersweet".toList,
   "gritty".toList, "tender".toList, "atmospheric".toList, "high-octane".toList,
   "epic".toList, "steady".toList, "fast".toList]

/-- `NOPE_KEYWORDS` vocabulary of the source. -/
def NOPE_KEYWORDS : List Str :=
  ["animal death".toList, "on-page sa".toList, "sexual assault".toList,
   "cheating".toList, "graphic violence".toList, "gore".toList]

/-- The preference dictionary built by `extract_prefs` (field names follow the
dictionary keys of the source). -/
structure Prefs where
  genres_like : List Str
  tropes : List Str
  vibes : List Str
  heat : Option Str
  ku : Option Bool
  audio : Option Bool
  hard_nopes : List Str
  max_pages : Option Int
  comps_like : List Str
deriving DecidableEq, Repr

/-- `extract_prefs(text)` of the source (total form; `extract_prefsE` below
makes the two fallible Python operations explicit). -/
def extract_prefs (text : Str) : Prefs :=
  let low := lower text
  { genres_like := (GENRES.filter (fun g => isInfixB g low)).map
      (fun g => if g = "wwii".toList then "WWII historical fiction".toList else g)
  , tropes := TROPES.filter (fun t => isInfixB t low)
  , vibes := VIBES.filter (fun v => isInfixB v low)
  , heat :=
      if closedPat low then some "closed".toList
      else if fadePat low then some "fade".toList
      else if openPat low then some "open".toList
      else none
  , ku := if kuPat low then some true else none
  , audio := if isInfixB "audiobook".toList low || isInfixB "audio".toList low then some true else none
  , hard_nopes := NOPE_KEYWORDS.filter
      (fun nope => isInfixB nope low || isInfixB ("no ".toList ++ (firstWord nope).getD []) low)
  , max_pages := (pagesSearch low).map (fun ds => (digitsToNat ds : Int))
  , comps_like := match compsSearch text with | some cap => [pyStrip cap] | none => [] }

/-- `int` applied to a regex capture, as an `Option`: succeeds exactly on
non-empty all-digit strings (the only shape `\d{2,4}` can capture). -/
def parseIntPy (ds : Str) : Option Int :=
  if ds ≠ [] ∧ ds.all Char.isDigit then some (digitsToNat ds : Int) else none

/-- `extract_prefs` with the two operations that Python could in principle
fail on — `int(m.group(1))` (`ValueError`) and `nope.split()[0]`
(`IndexError`) — modelled as `Except` errors. -/
def extract_prefsE (text : Str) : Except String Prefs := do
  let low := lower text
  let max_pages ← match pagesSearch low with
    | none => Except.ok none
    | some ds => match parseIntPy ds with
      | some n => Except.ok (some n)
      | none => Except.error "ValueError: invalid literal for int"
  let hard_nopes ← NOPE_KEYWORDS.foldlM (fun acc nope =>
    match firstWord nope with
    | some w =>
        Except.ok (if isInfixB nope low || isInfixB ("no ".toList ++ w) low
                   then acc ++ [nope] else acc)
    | none => Except.error "IndexError: list index out of range") []
  Except.ok
    { genres_like := (GENRES.filter (fun g => isInfixB g low)).map
        (fun g => if g = "wwii".toList then "WWII historical fiction".toList else g)
    , tropes := TROPES.filter (fun t => isInfixB t low)
    , vibes := VIBES.filter (fun v => isInfixB v low)
    , heat :=
        if closedPat low then some "closed".toList
        else if fadePat low then some "fade".toList
        else if openPat low then some "open".toList
        else none
    , ku := if kuPat low then some true else none
    , audio := if isInfixB "audiobook".toList low || isInfixB "audio".toList low then some true else none
    , hard_nopes := hard_nopes
    , max_pages := max_pages
    , comps_like := match compsSearch text with | some cap => [pyStrip cap] | none => [] }

/-- The catalog row type after `load_books`: every CSV cell is a string except
the two parsed boolean columns and the integer `pages` column. -/
structure Book where
  title : Str
  author : Str
  year : Str
  genres : Str
  tropes : Str
  vibes : Str
  heat : Str
  pacing : Str
  format_availability : Str
  ku : Bool
  audio : Bool
  pages : Int
  content_notes : Str
  comps : Str
  hook_line : Str
  why_readers_might_like : Str
deriving DecidableEq, Repr

/-- `contains_any(cell, terms)` of the source. -/
def contains_any (cell : Str) (terms : List Str) : Bool :=
  let c := lower cell
  terms.any (fun t => isInfixB (lower t) c)

/-- Python truthy `bool` as an integer summand (`3 * contains_any(...)`). -/
def boolInt (b : Bool) : Int := if b then 1 else 0

/-- `if prefs["genres_like"]: s += 3 * contains_any(row["genres"], prefs["genres_like"])`. -/
def genreTerm (genres : Str) (prefs : Prefs) : Int :=
  if prefs.genres_like ≠ [] then 3 * boolInt (contains_any genres prefs.genres_like) else 0

/-- `if prefs["tropes"]: s += 2 * contains_any(row["tropes"], prefs["tropes"])`. -/
def tropeTerm (tropes : Str) (prefs : Prefs) : Int :=
  if prefs.tropes ≠ [] then 2 * boolInt (contains_any tropes prefs.tropes) else 0

/-- `if prefs["vibes"]: s += 1 * contains_any(row["vibes"], prefs["vibes"])`. -/
def vibeTerm (vibes : Str) (prefs : Prefs) : Int :=
  if prefs.vibes ≠ [] then 1 * boolInt (contains_any vibes prefs.vibes) else 0

/-- `if prefs["heat"] and prefs["heat"] in str(row["heat"]).lower(): s += 1`
(an unset or empty heat preference is falsy). -/
def heatTerm (heat : Str) (prefs : Prefs) : Int :=
  match prefs.heat with
  | some h => if h ≠ [] ∧ h <:+: lower heat then 1 else 0
  | none => 0

/-- `if prefs["ku"] and bool(row["ku"]): s += 1`. -/
def kuTerm (ku : Bool) (prefs : Prefs) : Int :=
  match prefs.ku with
  | some b => if b ∧ ku then 1 else 0
  | none => 0

/-- `if prefs["audio"] and bool(row["audio"]): s += 1`. -/
def audioTerm (audio : Bool) (prefs : Prefs) : Int :=
  match prefs.audio with
  | some b => if b ∧ audio then 1 else 0
  | none => 0

/-- `if prefs["max_pages"] and int(row["pages"]) > prefs["max_pages"]: s -= 2`
(a zero `max_pages` is falsy; `int` on the already-integer `pages` column of a
loaded catalog cannot raise, so the `except: pass` is not reachable). -/
def pagesTerm (pages : Int) (prefs : Prefs) : Int :=
  match prefs.max_pages with
  | some n => if n ≠ 0 ∧ pages > n then -2 else 0
  | none => 0

/-- `if prefs["hard_nopes"] and contains_any(row["content_notes"], prefs["hard_nopes"]): s -= 4`. -/
def nopeTerm (content_notes : Str) (prefs : Prefs) : Int :=
  if prefs.hard_nopes ≠ [] ∧ contains_any content_notes prefs.hard_nopes then -4 else 0

/-- `if prefs["comps_like"] and contains_any(row["comps"], prefs["comps_like"]): s += 2`. -/
def compsTerm (comps : Str) (prefs : Prefs) : Int :=
  if prefs.comps_like ≠ [] ∧ contains_any comps prefs.comps_like then 2 else 0

/-- `score_row(row, prefs)` of the source: the sum of the nine additive rules,
one term per `s += ...` statement. -/
def score_row (row : Book) (prefs : Prefs) : Int :=
  0 + genreTerm row.genres prefs + tropeTerm row.tropes prefs + vibeTerm row.vibes prefs
    + heatTerm row.heat prefs + kuTerm row.ku prefs + audioTerm row.audio prefs
    + pagesTerm row.pages prefs + nopeTerm row.content_notes prefs + compsTerm row.comps prefs

/-- A scored catalog row: (original catalog position, row, score).  The
position models the original pandas index label, which `sort_values` and
boolean filtering keep attached to each row. -/
abbrev SRow := Nat × Book × Int

/-- The `score` column of a scored row. -/
def rowScore (x : SRow) : Int := x.2.2

/-- Stable descending insertion: `x` goes in front of the first element whose
score is not strictly greater, so rows already in the list that tie with `x`
stay in front only if they came earlier in the catalog. -/
def insertDescRow (x : SRow) : List SRow → List SRow
  | [] => [x]
  | y :: l => if rowScore x < rowScore y then y :: insertDescRow x l else x :: y :: l

/-- The stable reference ordering for `scored.sort_values("score",
ascending=False)`: the behavior pandas guarantees only under a stable sort
kind (`kind='stable'`/`'mergesort'`).  The source calls `sort_values` with the
default `kind='quicksort'`, which pandas documents as not stable, so the
program itself fixes no tie order — the documented default-kind contract is
the relation `sortValuesAdmissible` below, and this stable ordering is one of
its admissible outcomes. -/
def sortScoreDesc : List SRow → List SRow
  | [] => []
  | x :: l => insertDescRow x (sortScoreDesc l)

/-- `pick_books(df, prefs, k)` of the source, computed with the stable
reference ordering: score every row, sort descending by score, keep the first
`k`, then keep only rows with positive score.  `pickBooksAdmissible` below
captures every outcome the source's default unstable sort kind admits. -/
def pick_books (df : List Book) (prefs : Prefs) (k : Nat) : List SRow :=
  let scored := df.enum.map (fun p => (p.1, p.2, score_row p.2 prefs))
  let best := (sortScoreDesc scored).take k
  best.filter (fun x => 0 < rowScore x)

/-- The ordering that the stable reference sort establishes on scored rows:
either a strictly larger score, or a tie with a strictly smaller original
catalog position. -/
def lexAfter (a b : SRow) : Prop :=
  rowScore b < rowScore a ∨ (rowScore a = rowScore b ∧ a.1 < b.1)

/-- The documented contract of `sort_values("score", ascending=False)` with
the source's default `kind='quicksort'`: some permutation of the scored rows
ordered by non-increasing score.  Pandas documents that only `'mergesort'`
and `'stable'` are stable, so the relative order of tied rows is
unspecified. -/
def sortValuesAdmissible (scored out : List SRow) : Prop :=
  out.Perm scored ∧ out.Pairwise (fun a b => rowScore b ≤ rowScore a)

/-- The outcomes of `pick_books(df, prefs, k)` admitted by the documented
contract of the default sort kind: the first `k` rows of some admissible
descending ordering, restricted to positive scores. -/
def pickBooksAdmissible (df : List Book) (prefs : Prefs) (k : Nat) (out : List SRow) : Prop :=
  ∃ sorted,
    sortValuesAdmissible (df.enum.map (fun p => (p.1, p.2, score_row p.2 prefs))) sorted
    ∧ out = (sorted.take k).filter (fun x => 0 < rowScore x)

/-- What `pd.to_numeric(cell, errors="coerce")` leaves in one `pages` cell:
a coercion failure (`NaN`, which `fillna(0)` turns into 0), a non-finite
float (on which the later `astype(int)` raises `IntCastingNaNError`), or a
finite value (here already truncated toward zero by `astype(int)`). -/
inductive NumCell where
  | nan
  | inf
  | val (v : Int)
deriving DecidableEq, Repr

/-- The optional exponent of the `to_numeric` grammar, after the mantissa:
an empty rest means exponent 0; otherwise `e`/`E`, an optional sign and a
non-empty digit run must consume the whole rest of the cell. -/
def parseExpPart : Str → Option Int
  | [] => some 0
  | c :: r =>
    if c = 'e' ∨ c = 'E' then
      let sr : Int × Str := match r with
        | c2 :: r2 => if c2 = '-' then (-1, r2) else if c2 = '+' then (1, r2) else (1, r)
        | [] => (1, r)
      let ed := sr.2.takeWhile Char.isDigit
      if ed = [] ∨ sr.2.drop ed.length ≠ [] then none
      else some (sr.1 * (digitsToNat ed : Int))
    else none

/-- `pd.to_numeric(cell, errors="coerce")` followed by `astype(int)`'s
truncation, on one cell.  After stripping whitespace and an optional sign,
the parser accepts the case-insensitive literals `inf`/`infinity`
(non-finite), or a decimal mantissa — digits with an optional fractional
part — with an optional `e`/`E` exponent (so `"1e3"` is the finite value
1000).  The finite value is the exact decimal value truncated toward zero;
magnitudes of `2^1024` or more overflow `float64` to infinity.  Anything
else coerces to `NaN`.  (Float64 rounding inside the representable range and
the half-ulp band just below the overflow threshold are not modelled; a
literal `nan` cell coerces like unparseable text and loads as the same 0.) -/
def toNumericCell (s : Str) : NumCell :=
  let t := pyStrip s
  let su : Int × Str := match t with
    | c :: r => if c = '-' then (-1, r) else if c = '+' then (1, r) else (1, t)
    | [] => (1, t)
  let sgn := su.1
  let u := su.2
  if lower u = "inf".toList ∨ lower u = "infinity".toList then NumCell.inf
  else
    let ip := u.takeWhile Char.isDigit
    let u1 := u.drop ip.length
    let fp : Str := match u1 with
      | '.' :: r => r.takeWhile Char.isDigit
      | _ => []
    let u2 : Str := match u1 with
      | '.' :: r => r.drop (r.takeWhile Char.isDigit).length
      | _ => u1
    if ip = [] ∧ fp = [] then NumCell.nan
    else
      match parseExpPart u2 with
      | none => NumCell.nan
      | some e =>
        let N := digitsToNat (ip ++ fp)
        let f : Int := fp.length
        if N = 0 then NumCell.val 0
        else if e - f > 400 then NumCell.inf
        else if f ≤ e then
          let mag := N * 10 ^ (e - f).toNat
          if 2 ^ 1024 ≤ mag then NumCell.inf else NumCell.val (sgn * mag)
        else if (ip.length + fp.length : Int) < f - e then NumCell.val 0
        else
          let mag := N / 10 ^ (f - e).toNat
          if 2 ^ 1024 ≤ mag then NumCell.inf else NumCell.val (sgn * mag)

/-- Input text of round-trip scenario 1. -/
def text7 : Str := "Looking for a slow burn fantasy, closed door please, under 300 pages".toList

/-- Catalog item of round-trip scenario 1. -/
def item7 : Book :=
  { title := "The Keep".toList
  , author := "A. Writer".toList
  , year := "2020".toList
  , genres := "epic fantasy".toList
  , tropes := "slow burn, found family".toList
  , vibes := []
  , heat := "closed door".toList
  , pacing := []
  , format_availability := []
  , ku := false
  , audio := false
  , pages := 250
  , content_notes := []
  , comps := []
  , hook_line := []
  , why_readers_might_like := [] }

/-- The profile that scenario 1's text should extract to. -/
def profile7 : Prefs :=
  { genres_like := ["fantasy".toList]
  , tropes := ["slow burn".toList]
  , vibes := []
  , heat := some "closed".toList
  , ku := none
  , audio := none
  , hard_nopes := []
  , max_pages := some 300
  , comps_like := [] }

/-- A profile with one hard exclusion (used to witness the penalty rule). -/
def profileNope : Prefs :=
  { genres_like := []
  , tropes := []
  , vibes := []
  , heat := none
  , ku := none
  , audio := none
  , hard_nopes := ["cheating".toList]
  , max_pages := none
  , comps_like := [] }

theorem genreTerm_mem (g : Str) (p : Prefs) : genreTerm g p = 0 ∨ genreTerm g p = 3 := by
  unfold genreTerm boolInt
  split
  · split <;> simp
  · simp

theorem tropeTerm_mem (t : Str) (p : Prefs) : tropeTerm t p = 0 ∨ tropeTerm t p = 2 := by
  unfold tropeTerm boolInt
  split
  · split <;> simp
  · simp

theorem vibeTerm_mem (v : Str) (p : Prefs) : vibeTerm v p = 0 ∨ vibeTerm v p = 1 := by
  unfold vibeTerm boolInt
  split
  · split <;> simp
  · simp

theorem heatTerm_mem (h : Str) (p : Prefs) : heatTerm h p = 0 ∨ heatTerm h p = 1 := by
  unfold heatTerm
  rcases p.heat with _ | hp
  · simp
  · dsimp only
    by_cases hc : hp ≠ [] ∧ hp <:+: lower h
    · rw [if_pos hc]; simp
    · rw [if_neg hc]; simp

theorem kuTerm_mem (b : Bool) (p : Prefs) : kuTerm b p = 0 ∨ kuTerm b p = 1 := by
  unfold kuTerm
  rcases p.ku with _ | bp
  · simp
  · dsimp only
    by_cases hc : bp = true ∧ b = true
    · rw [if_pos hc]; simp
    · rw [if_neg hc]; simp

theorem audioTerm_mem (b : Bool) (p : Prefs) : audioTerm b p = 0 ∨ audioTerm b p = 1 := by
  unfold audioTerm
  rcases p.audio with _ | bp
  · simp
  · dsimp only
    by_cases hc : bp = true ∧ b = true
    · rw [if_pos hc]; simp
    · rw [if_neg hc]; simp

theorem pagesTerm_mem (n : Int) (p : Prefs) : pagesTerm n p = 0 ∨ pagesTerm n p = -2 := by
  unfold pagesTerm
  rcases p.max_pages with _ | mp
  · simp
  · dsimp only
    by_cases hc : mp ≠ 0 ∧ n > mp
    · rw [if_pos hc]; simp
    · rw [if_neg hc]; simp

theorem nopeTerm_mem (c : Str) (p : Prefs) : nopeTerm c p = 0 ∨ nopeTerm c p = -4 := by
  unfold nopeTerm
  split <;> simp

theorem compsTerm_mem (c : Str) (p : Prefs) : compsTerm c p = 0 ∨ compsTerm c p = 2 := by
  unfold compsTerm
  split <;> simp

/-! ## Claim theorems: scoring engine -/

/-- C9: for every catalog item and preference profile, `score_row` lies in the
interval `[-6, 11]`: the positive rules contribute at most 3+2+1+1+1+1+2 = 11
and the penalty rules at most -2-4 = -6, each rule firing at most once. -/
theorem score_row_bounded (row : Book) (prefs : Prefs) :
    -6 ≤ score_row row prefs ∧ score_row row prefs ≤ 11 := by
  have h1 : 0 ≤ genreTerm row.genres prefs ∧ genreTerm row.genres prefs ≤ 3 := by
    rcases genreTerm_mem row.genres prefs with h | h <;> omega
  have h2 : 0 ≤ tropeTerm row.tropes prefs ∧ tropeTerm row.tropes prefs ≤ 2 := by
    rcases tropeTerm_mem row.tropes prefs with h | h <;> omega
  have h3 : 0 ≤ vibeTerm row.vibes prefs ∧ vibeTerm row.vibes prefs ≤ 1 := by
    rcases vibeTerm_mem row.vibes prefs with h | h <;> omega
  have h4 : 0 ≤ heatTerm row.heat prefs ∧ heatTerm row.heat prefs ≤ 1 := by
    rcases heatTerm_mem row.heat prefs with h | h <;> omega
  have h5 : 0 ≤ kuTerm row.ku prefs ∧ kuTerm row.ku prefs ≤ 1 := by
    rcases kuTerm_mem row.ku prefs with h | h <;> omega
  have h6 : 0 ≤ audioTerm row.audio prefs ∧ audioTerm row.audio prefs ≤ 1 := by
    rcases audioTerm_mem row.audio prefs with h | h <;> omega
  have h7 : -2 ≤ pagesTerm row.pages prefs ∧ pagesTerm row.pages prefs ≤ 0 := by
    rcases pagesTerm_mem row.pages prefs with h | h <;> omega
  have h8 : -4 ≤ nopeTerm row.content_notes prefs ∧ nopeTerm row.content_notes prefs ≤ 0 := by
    rcases nopeTerm_mem row.content_notes prefs with h | h <;> omega
  have h9 : 0 ≤ compsTerm row.comps prefs ∧ compsTerm row.comps prefs ≤ 2 := by
    rcases compsTerm_mem row.comps prefs with h | h <;> omega
  unfold score_row
  omega

/-- C9 witness: the bounds instantiated at scenario 1's concrete item and
extracted profile. -/
theorem score_row_bounded_witness :
    -6 ≤ score_row item7 (extract_prefs text7) ∧ score_row item7 (extract_prefs text7) ≤ 11 :=
  score_row_bounded item7 (extract_prefs text7)

/-- C3: holding every other field fixed, turning the genre text of an item
from one with no liked-genre match into one with a match adds exactly 3 to the
score (when `likedGenres` is non-empty), and turning the content-notes text
from one with no hard-exclusion match into one with a match subtracts exactly
4 (when `hardExclusions` is non-empty). -/
theorem score_row_monotonic :
    (∀ (row : Book) (prefs : Prefs) (g1 g2 : Str),
      prefs.genres_like ≠ [] →
      contains_any g1 prefs.genres_like = false →
      contains_any g2 prefs.genres_like = true →
      score_row { row with genres := g2 } prefs = score_row { row with genres := g1 } prefs + 3)
  ∧ (∀ (row : Book) (prefs : Prefs) (c1 c2 : Str),
      prefs.hard_nopes ≠ [] →
      contains_any c1 prefs.hard_nopes = false →
      contains_any c2 prefs.hard_nopes = true →
      score_row { row with content_notes := c2 } prefs
        = score_row { row with content_notes := c1 } prefs - 4) := by
  constructor
  · intro row prefs g1 g2 h1 h2 h3
    have e2 : genreTerm g2 prefs = 3 := by simp [genreTerm, boolInt, h1, h3]
    have e1 : genreTerm g1 prefs = 0 := by simp [genreTerm, boolInt, h1, h2]
    unfold score_row
    dsimp only
    rw [e1, e2]
    omega
  · intro row prefs c1 c2 h1 h2 h3
    have e2 : nopeTerm c2 prefs = -4 := by simp [nopeTerm, h1, h3]
    have e1 : nopeTerm c1 prefs = 0 := by simp [nopeTerm, h2]
    unfold score_row
    dsimp only
    rw [e1, e2]
    omega

/-! ## Claim theorems: preference extraction -/

/-- C5: heat detection resolves by priority with first match winning: the
closed-door pattern forces `closed` even when the fade or open patterns also
match; `fade` requires the closed pattern absent; `open` requires both earlier
patterns absent; with no match heat stays unset. -/
theorem extract_heat_priority (text : Str) :
    (closedPat (lower text) = true → (extract_prefs text).heat = some "closed".toList)
  ∧ (closedPat (lower text) = false → fadePat (lower text) = true →
      (extract_prefs text).heat = some "fade".toList)
  ∧ (closedPat (lower text) = false → fadePat (lower text) = false →
      openPat (lower text) = true → (extract_prefs text).heat = some "open".toList)
  ∧ (closedPat (lower text) = false → fadePat (lower text) = false →
      openPat (lower text) = false → (extract_prefs text).heat = none) := by
  refine ⟨fun h1 => ?_, fun h1 h2 => ?_, fun h1 h2 h3 => ?_, fun h1 h2 h3 => ?_⟩ <;>
    simp [extract_prefs, *]

/-- C5 witness: a text matching both the closed and the open patterns is
classified `closed`. -/
theorem extract_heat_priority_witness :
    closedPat (lower "clean but spicy".toList) = true
  ∧ openPat (lower "clean but spicy".toList) = true
  ∧ (extract_prefs "clean but spicy".toList).heat = some "closed".toList :=
  ⟨by decide, by decide, (extract_heat_priority "clean but spicy".toList).1 (by decide)⟩

/-- C6: a sensitive-content term lands in `hard_nopes` iff the lower-cased
text contains the exact term, or contains `"no "` immediately followed by the
term's first word. -/
theorem extract_hard_nopes_iff (text : Str) (nope : Str) (hmem : nope ∈ NOPE_KEYWORDS) :
    nope ∈ (extract_prefs text).hard_nopes ↔
      nope <:+: lower text ∨ ("no ".toList ++ (firstWord nope).getD []) <:+: lower text := by
  simp [extract_prefs, List.mem_filter, isInfixB, hmem]

/-- C6 witness: `"cheating"` is flagged for a text containing it verbatim. -/
theorem extract_hard_nopes_iff_witness :
    "cheating".toList ∈ (extract_prefs "I want no cheating".toList).hard_nopes :=
  (extract_hard_nopes_iff "I want no cheating".toList "cheating".toList (by decide)).mpr
    (by decide)

/-- C10: the subscription (`ku`) and `audio` preference fields are only ever
unset or `true`; extraction never produces an explicit `false`. -/
theorem extract_ku_audio_never_false (text : Str) :
    ((extract_prefs text).ku = none ∨ (extract_prefs text).ku = some true)
  ∧ ((extract_prefs text).audio = none ∨ (extract_prefs text).audio = some true) := by
  constructor <;> (simp only [extract_prefs]; split <;> simp)

set_option maxRecDepth 40000 in
/-- C7: round-trip scenario 1: the scenario text extracts to exactly the
claimed profile (`likedGenres=["fantasy"]`, `likedTropes=["slow burn"]`,
`heat=closed`, `maxPages=300`, everything else unset); the scenario item
scores at least 6 against it, and is selected by `pick_books` from a catalog
containing it. -/
theorem round_trip_scenario1 :
    extract_prefs text7 = profile7
  ∧ 6 ≤ score_row item7 profile7
  ∧ pick_books [item7] profile7 4 = [(0, item7, 6)] := by
  refine ⟨by decide, by decide, by decide⟩

/-! ## Helper lemmas: totality of the extractor -/

/-- Whatever `pagesAfter` captures is a non-empty run of digit characters. -/
theorem pagesAfter_digits {l ds : Str} (h : pagesAfter l = some ds) :
    ds ≠ [] ∧ ds.all Char.isDigit = true := by
  simp only [pagesAfter] at h
  obtain ⟨len, hlen, hsome⟩ := List.exists_of_findSome?_eq_some h
  rw [List.mem_filter] at hlen
  obtain ⟨hlen4, hle⟩ := hlen
  have hle2 : len ≤ ((l.dropWhile isPySpace).takeWhile Char.isDigit).length := by
    simpa using hle
  have hlen2 : 2 ≤ len := by
    have : len = 4 ∨ len = 3 ∨ len = 2 := by simpa using hlen4
    omega
  split at hsome
  · rw [Option.some_inj] at hsome
    subst hsome
    refine ⟨?_, ?_⟩
    · rw [← List.length_pos, List.length_take]
      omega
    · rw [List.all_eq_true]
      intro x hx
      exact List.mem_takeWhile_imp (List.mem_of_mem_take hx)
  · exact absurd hsome (by simp)

/-- Lifts `pagesAfter_digits` through the `under`/`<` alternation. -/
theorem pagesMatchAt_digits {low ds : Str} {i : Nat} (h : pagesMatchAt low i = some ds) :
    ds ≠ [] ∧ ds.all Char.isDigit = true := by
  simp only [pagesMatchAt] at h
  split at h
  · exact pagesAfter_digits h
  · split at h
    · exact pagesAfter_digits h
    · exact absurd h (by simp)

/-- Whatever the page regex captures is a non-empty run of digits, so `int`
cannot fail on it. -/
theorem pagesSearch_digits {low ds : Str} (h : pagesSearch low = some ds) :
    ds ≠ [] ∧ ds.all Char.isDigit = true := by
  obtain ⟨i, _, hsome⟩ := List.exists_of_findSome?_eq_some h
  exact pagesMatchAt_digits hsome

/-- The `foldlM` over the hard-exclusion vocabulary never reaches its error
branch (every keyword has a first word) and computes the filter of the total
extractor. -/
theorem foldlM_nopes (low : Str) (l : List Str) (acc : List Str)
    (hl : ∀ nope ∈ l, firstWord nope ≠ none) :
    List.foldlM (m := Except String) (fun acc nope =>
      match firstWord nope with
      | some w =>
          Except.ok (if isInfixB nope low || isInfixB ("no ".toList ++ w) low
                     then acc ++ [nope] else acc)
      | none => Except.error "IndexError: list index out of range") acc l
    = Except.ok (acc ++ l.filter
        (fun nope => isInfixB nope low || isInfixB ("no ".toList ++ (firstWord nope).getD []) low)) := by
  induction l generalizing acc with
  | nil => simp [List.foldlM_nil]; rfl
  | cons x xs ih =>
    have hx := hl x (List.mem_cons_self x xs)
    cases hfw : firstWord x with
    | none => exact absurd hfw hx
    | some w =>
      rw [List.foldlM_cons]
      simp only [hfw]
      show List.foldlM _ (if isInfixB x low || isInfixB ("no ".toList ++ w) low
                          then acc ++ [x] else acc) xs = _
      rw [ih _ (fun n hn => hl n (List.mem_cons_of_mem _ hn)), List.filter_cons, hfw]
      simp only [Option.getD_some]
      split
      · simp
      · simp

/-- C4: for every input string the extractor terminates with a profile and
never raises: the exception-explicit model `extract_prefsE` always returns
`ok`, and agrees with the total extractor `extract_prefs`. -/
theorem extract_prefs_total (text : Str) :
    extract_prefsE text = Except.ok (extract_prefs text) := by
  have hfw : ∀ nope ∈ NOPE_KEYWORDS, firstWord nope ≠ none := by decide
  cases hps : pagesSearch (lower text) with
  | none =>
      simp only [extract_prefsE, extract_prefs, hps, Bind.bind, Except.bind,
        foldlM_nopes (lower text) NOPE_KEYWORDS [] hfw, Option.map_none', List.nil_append]
  | some ds =>
      obtain ⟨hne, hdig⟩ := pagesSearch_digits hps
      have hpi : parseIntPy ds = some (digitsToNat ds : Int) := by
        simp [parseIntPy, hne, hdig]
      simp only [extract_prefsE, extract_prefs, hps, hpi, Bind.bind, Except.bind,
        foldlM_nopes (lower text) NOPE_KEYWORDS [] hfw, Option.map_some', List.nil_append]

/-- C4 witness: the extractor applied to scenario 1's text. -/
theorem extract_prefs_total_witness :
    extract_prefsE text7 = Except.ok (extract_prefs text7) :=
  extract_prefs_total text7

/-! ## Helper lemmas: the stable descending sort -/

theorem mem_insertDescRow {z x : SRow} {l : List SRow} :
    z ∈ insertDescRow x l ↔ z = x ∨ z ∈ l := by
  induction l with
  | nil => simp [insertDescRow]
  | cons y l ih =>
    simp only [insertDescRow]
    split
    · simp only [List.mem_cons, ih]
      tauto
    · simp only [List.mem_cons]

theorem mem_sortScoreDesc {z : SRow} {l : List SRow} :
    z ∈ sortScoreDesc l ↔ z ∈ l := by
  induction l with
  | nil => simp [sortScoreDesc]
  | cons x l ih =>
    simp only [sortScoreDesc, mem_insertDescRow, ih, List.mem_cons]

theorem insertDescRow_pairwise {x : SRow} {l : List SRow}
    (hl : l.Pairwise lexAfter) (hx : ∀ y ∈ l, x.1 < y.1) :
    (insertDescRow x l).Pairwise lexAfter := by
  induction l with
  | nil => simp [insertDescRow]
  | cons y l ih =>
    rw [List.pairwise_cons] at hl
    obtain ⟨hy, hl'⟩ := hl
    simp only [insertDescRow]
    split
    · rename_i hxy
      rw [List.pairwise_cons]
      refine ⟨fun z hz => ?_, ?_⟩
      · rw [mem_insertDescRow] at hz
        rcases hz with rfl | hz
        · exact Or.inl hxy
        · exact hy z hz
      · exact ih hl' (fun y' hy' => hx y' (List.mem_cons_of_mem _ hy'))
    · rename_i hxy
      push_neg at hxy
      rw [List.pairwise_cons]
      refine ⟨fun z hz => ?_, List.pairwise_cons.mpr ⟨hy, hl'⟩⟩
      rcases List.mem_cons.mp hz with rfl | hz
      · rcases lt_or_eq_of_le hxy with h | h
        · exact Or.inl h
        · exact Or.inr ⟨h.symm, hx z (List.mem_cons_self z l)⟩
      · rcases hy z hz with h | ⟨he, _⟩
        · exact Or.inl (lt_of_lt_of_le h hxy)
        · rcases lt_or_eq_of_le hxy with h2 | h2
          · exact Or.inl (by omega)
          · exact Or.inr ⟨by omega, hx z (List.mem_cons_of_mem _ hz)⟩

theorem sortScoreDesc_pairwise {l : List SRow}
    (h : l.Pairwise (fun a b => a.1 < b.1)) :
    (sortScoreDesc l).Pairwise lexAfter := by
  induction l with
  | nil => simp [sortScoreDesc]
  | cons x l ih =>
    rw [List.pairwise_cons] at h
    obtain ⟨hx, hl⟩ := h
    refine insertDescRow_pairwise (ih hl) (fun y hy => ?_)
    rw [mem_sortScoreDesc] at hy
    exact hx y hy

theorem le_fst_of_mem_enumFrom {α : Type _} {p : Nat × α} {n : Nat} {l : List α}
    (h : p ∈ List.enumFrom n l) : n ≤ p.1 := by
  induction l generalizing n with
  | nil => simp [List.enumFrom] at h
  | cons x xs ih =>
    rw [List.enumFrom_cons, List.mem_cons] at h
    rcases h with rfl | h
    · simp
    · have := ih h
      omega

theorem enumFrom_pairwise_fst {α : Type _} (n : Nat) (l : List α) :
    (List.enumFrom n l).Pairwise (fun a b => a.1 < b.1) := by
  induction l generalizing n with
  | nil => simp [List.enumFrom]
  | cons x xs ih =>
    rw [List.enumFrom_cons, List.pairwise_cons]
    refine ⟨fun p hp => ?_, ih (n + 1)⟩
    have := le_fst_of_mem_enumFrom hp
    omega

theorem enum_pairwise_fst {α : Type _} (l : List α) :
    l.enum.Pairwise (fun a b => a.1 < b.1) :=
  enumFrom_pairwise_fst 0 l

/-- The selection of `pick_books` is sorted by descending score with original
catalog position as the tie-break. -/
theorem pick_books_pairwise_lex (df : List Book) (prefs : Prefs) (k : Nat) :
    (pick_books df prefs k).Pairwise lexAfter := by
  unfold pick_books
  apply List.Pairwise.sublist (List.filter_sublist _)
  apply List.Pairwise.sublist (List.take_sublist _ _)
  apply sortScoreDesc_pairwise
  rw [List.pairwise_map]
  exact enum_pairwise_fst df

theorem insertDescRow_perm (x : SRow) (l : List SRow) :
    List.Perm (insertDescRow x l) (x :: l) := by
  induction l with
  | nil => rfl
  | cons y l ih =>
    simp only [insertDescRow]
    split
    · exact (ih.cons y).trans (List.Perm.swap x y l)
    · rfl

theorem sortScoreDesc_perm (l : List SRow) : List.Perm (sortScoreDesc l) l := by
  induction l with
  | nil => rfl
  | cons x l ih => exact (insertDescRow_perm x (sortScoreDesc l)).trans (ih.cons x)

/-! ## Claim theorems: ranker/selector -/

/-- C1 counterexample: the program's default sort kind is documented as
unstable, so it does not guarantee the claimed tie order.  For a two-item
catalog whose items tie at score 6, the reversed tie order is also an
admissible outcome of `pick_books` under the documented `sort_values`
contract, and that outcome ranks the later catalog item first — refuting the
claim that every selection ranks the earlier-catalog item first on ties. -/
theorem pick_books_ties_counterexample :
    pickBooksAdmissible [item7, item7] profile7 4 [(1, item7, 6), (0, item7, 6)]
  ∧ ¬ ([(1, item7, 6), (0, item7, 6)] : List SRow).Pairwise
        (fun a b => rowScore a = rowScore b → a.1 < b.1) := by
  constructor
  · exact ⟨[(1, item7, 6), (0, item7, 6)], ⟨by decide, by decide⟩, by decide⟩
  · decide

/-- C1 (amended): the documented contract of the source's default sort kind
fixes no tie order; the stable reference ordering — the behavior under a
stable sort kind — is one admissible outcome of `pick_books`, and it ranks
tied items by earlier original catalog position. -/
theorem pick_books_stable_kind_ties (df : List Book) (prefs : Prefs) (k : Nat) :
    pickBooksAdmissible df prefs k (pick_books df prefs k)
  ∧ (pick_books df prefs k).Pairwise (fun a b => rowScore a = rowScore b → a.1 < b.1) := by
  constructor
  · refine ⟨sortScoreDesc (df.enum.map (fun p => (p.1, p.2, score_row p.2 prefs))),
      ⟨sortScoreDesc_perm _, ?_⟩, ?_⟩
    · have hp := sortScoreDesc_pairwise
        (l := df.enum.map (fun p => (p.1, p.2, score_row p.2 prefs)))
        (by rw [List.pairwise_map]; exact enum_pairwise_fst df)
      apply hp.imp
      intro a b h
      rcases h with h | ⟨he, _⟩
      · omega
      · omega
    · rfl
  · apply (pick_books_pairwise_lex df prefs k).imp
    intro a b h heq
    rcases h with h | ⟨_, hi⟩
    · omega
    · exact hi

/-- C1 witness: the amended statement at a two-item catalog whose items
tie. -/
theorem pick_books_stable_kind_ties_witness :
    pickBooksAdmissible [item7, item7] profile7 4 (pick_books [item7, item7] profile7 4)
  ∧ (pick_books [item7, item7] profile7 4).Pairwise
      (fun a b => rowScore a = rowScore b → a.1 < b.1) :=
  pick_books_stable_kind_ties [item7, item7] profile7 4

/-- C2: every selected row has positive score (its `score_row` value), the
selection never exceeds `k` rows, and the selection is ordered by
non-increasing score. -/
theorem pick_books_selection_invariants (df : List Book) (prefs : Prefs) (k : Nat) :
    (∀ x ∈ pick_books df prefs k, 0 < rowScore x ∧ rowScore x = score_row x.2.1 prefs)
  ∧ (pick_books df prefs k).length ≤ k
  ∧ (pick_books df prefs k).Pairwise (fun a b => rowScore b ≤ rowScore a) := by
  refine ⟨?_, ?_, ?_⟩
  · intro x hx
    unfold pick_books at hx
    rw [List.mem_filter] at hx
    obtain ⟨hx1, hx2⟩ := hx
    refine ⟨by simpa using hx2, ?_⟩
    have hx3 := List.mem_of_mem_take hx1
    rw [mem_sortScoreDesc, List.mem_map] at hx3
    obtain ⟨p, _, rfl⟩ := hx3
    rfl
  · unfold pick_books
    exact le_trans (List.length_filter_le _ _) (List.length_take_le _ _)
  · apply (pick_books_pairwise_lex df prefs k).imp
    intro a b h
    rcases h with h | ⟨he, _⟩
    · omega
    · omega

/-- C2 witness: the invariants instantiated at scenario 1's catalog. -/
theorem pick_books_selection_invariants_witness :
    0 < rowScore (0, item7, 6) ∧ (pick_books [item7] profile7 4).length ≤ 4 :=
  ⟨((pick_books_selection_invariants [item7] profile7 4).1 (0, item7, 6) (by decide)).1,
   (pick_books_selection_invariants [item7] profile7 4).2.1⟩

/-! ## Helper lemmas: catalog loading -/

set_option maxRecDepth 40000 in
/-- Fidelity checks of the page-cell grammar: scientific notation is a finite
numeric value, and the `inf` literal is non-finite. -/
theorem toNumericCell_sci :
    toNumericCell "1e3".toList = NumCell.val 1000
  ∧ toNumericCell "inf".toList = NumCell.inf := by
  constructor <;> decide

/-- C3 witness: the two exact-weight differences at concrete items and
profiles. -/
theorem score_row_monotonic_witness :
    score_row { item7 with genres := "epic fantasy".toList } profile7
      = score_row { item7 with genres := "space opera".toList } profile7 + 3
  ∧ score_row { item7 with content_notes := "cheating".toList } profileNope
      = score_row { item7 with content_notes := "none".toList } profileNope - 4 :=
  ⟨score_row_monotonic.1 item7 profile7 "space opera".toList "epic fantasy".toList
      (by decide) (by decide) (by decide),
   score_row_monotonic.2 item7 profileNope "none".toList "cheating".toList
      (by decide) (by decide) (by decide)⟩
